import Mathlib

/-!
Verification of the node quantization configuration model of a post-training
quantization toolkit.  The definitions below are a shallow embedding of
`model_compression_toolkit/core/common/quantization/node_quantization_config.py`
and of the concat-threshold substitution in
`model_compression_toolkit/core/keras/graph_substitutions/substitutions/concat_threshold_update.py`.

Conventions of the embedding:
* Python floats are modelled as rationals (`Rat`); the claims under study are
  about copying, comparing and propagating these values, not about float
  arithmetic.
* Python dictionaries are modelled as association lists with insert-or-replace
  assignment (`dictSet`), preserving insertion order like Python 3.7+ dicts.
* `Logger.error` / `Logger.critical` raise in this code base, so every call
  site of them is modelled as a fatal outcome (`Except.error`);
  `Logger.warning` logs and continues, so it is modelled as a no-op.
* Python function objects that are only ever compared by identity are
  modelled by identity tags (`PyFn`); the weights parameter-computation
  function, which the code actually calls, is modelled as a real function.
* The quantization function registry
  (`quantization_params_fn_selection` / `quantization_fn_selection`) is not
  part of the sources under study; following the specification it is a pure
  lookup keyed by the quantization method, and it is taken as an explicit
  `Registry` argument everywhere.
-/

/-- Closed enumeration of quantization error metrics (external leaf enum). -/
inductive QuantizationErrorMethod
  | NOISE
  | MSE
  | MAE
  | KL
  | LP
deriving DecidableEq

/-- Closed enumeration of quantization methods (external leaf enum). -/
inductive QuantizationMethod
  | POWER_OF_TWO
  | SYMMETRIC
  | UNIFORM
  | LUT_POT
deriving DecidableEq

/-- Identity tag for a Python function object: two tags are equal exactly when
the two function objects are the same object (Python `==` on functions). -/
inductive PyFn
  | actParams (m : QuantizationMethod)
  | wQuant (m : QuantizationMethod)
  | custom (n : Nat)
deriving DecidableEq

/-- Tensor content handed to the parameter-computation function; opaque to the
configuration layer. -/
abbrev TensorData := List Rat

/-- Numeric weights-parameter mapping (threshold, scale, ...), keyed by
parameter name. -/
abbrev ParamsDict := List (String × Rat)

/-- Numeric activation-parameter mapping.  Values are `Option Rat` because a
Python dict entry can hold `None` (the concat substitution can store the
result of `dict.get` directly). -/
abbrev AParamsDict := List (String × Option Rat)

/-- Assignment `d[k] = v` on a Python dict: replace the value in place if the
key is present, append otherwise. -/
def dictSet {K V : Type} [DecidableEq K] (d : List (K × V)) (k : K) (v : V) : List (K × V) :=
  match d with
  | [] => [(k, v)]
  | (k', v') :: rest => if k' = k then (k, v) :: rest else (k', v') :: dictSet rest k v

/-- Merge-update `for k, v in src.items(): d[k] = v`. -/
def dictUpdate {K V : Type} [DecidableEq K] (d src : List (K × V)) : List (K × V) :=
  src.foldl (fun acc kv => dictSet acc kv.1 kv.2) d

/-- Python `d.get(k)`: the stored value when the key is present, `None`
otherwise.  On an `AParamsDict` a stored `None` and an absent key are
indistinguishable, exactly as in Python. -/
def pyDictGet (d : AParamsDict) (k : String) : Option Rat :=
  match d.lookup k with
  | some v => v
  | none => none

/-- Whether `sub` occurs at the start of `l` (character-list helper for Python
string containment). -/
def charsStart : List Char → List Char → Bool
  | [], _ => true
  | _ :: _, [] => false
  | a :: as, b :: bs => a == b && charsStart as bs

/-- Whether `sub` occurs anywhere inside `l`. -/
def charsContain (sub : List Char) : List Char → Bool
  | [] => charsStart sub []
  | b :: bs => charsStart sub (b :: bs) || charsContain sub bs

/-- Python `sub in s` on strings: substring containment. -/
def strIn (sub s : String) : Bool :=
  charsContain sub.data s.data

/-- Fatal outcomes of the configuration layer: `Logger.critical` /
`Logger.error` raise, a failed `assert` raises `AssertionError`, and
subscripting `None` raises `TypeError`. -/
inductive PyErr
  | criticalErr (msg : String)
  | fatalErr (msg : String)
  | assertErr
  | typeErr
deriving DecidableEq

/-- Global user policy handed to node-config construction
(`QuantizationConfig`, external, immutable). -/
structure QuantizationConfig where
  activation_error_method : QuantizationErrorMethod
  weights_error_method : QuantizationErrorMethod
  relu_bound_to_power_of_2 : Bool
  activation_channel_equalization : Bool
  input_scaling : Bool
  min_threshold : Rat
  l_p_value : Nat
  shift_negative_activation_correction : Bool
  z_threshold : Rat
  shift_negative_ratio : Rat
  shift_negative_threshold_recalculation : Bool
  weights_second_moment_correction : Bool
  weights_bias_correction : Bool
deriving DecidableEq

/-- Per-attribute capability declaration (`AttributeQuantizationConfig`,
external). -/
structure AttributeQuantizationConfig where
  weights_quantization_method : QuantizationMethod
  weights_n_bits : Nat
  weights_per_channel_threshold : Bool
  enable_weights_quantization : Bool
deriving DecidableEq

/-- Per-operator capability declaration (`OpQuantizationConfig`, external). -/
structure OpQuantizationConfig where
  activation_quantization_method : QuantizationMethod
  activation_n_bits : Nat
  enable_activation_quantization : Bool
  simd_size : Nat
  default_weight_attr_config : AttributeQuantizationConfig
  attr_weights_configs_mapping : List (String × AttributeQuantizationConfig)
deriving DecidableEq

/-- Arguments that `calculate_and_set_weights_params` passes to the bound
weights parameter-computation function, one field per keyword argument of the
call. -/
structure WParamsArgs where
  tensor_data : TensorData
  p : Nat
  n_bits : Nat
  per_channel : Bool
  channel_axis : Int
  min_threshold : Rat

/-- Callable weights parameter-computation function. -/
abbrev WParamsFn := WParamsArgs → ParamsDict

/-- Modelled from the spec: the quantization function registry
(`quantization_fn_selection` / `quantization_params_fn_selection` modules,
not among the sources under study).  Per the specification it is a pure
lookup `(quantization_method) -> fn`, looked up independently for weights and
activations; a method that needs no statistical calibration may have no
parameter-computation function (`none`). -/
structure Registry where
  getActivationQuantizationParamsFn : QuantizationMethod → Option PyFn
  getWeightsQuantizationFn : QuantizationMethod → PyFn
  getWeightsQuantizationParamsFn : QuantizationMethod → Option WParamsFn

/-- Resolved activation configuration of one node
(`NodeActivationQuantizationConfig`).  The two function slots are identity
tags; `activation_error_method` is the backing field of the Python property. -/
structure NodeActivationQuantizationConfig where
  activation_quantization_fn : Option PyFn
  activation_quantization_params_fn : Option PyFn
  activation_quantization_params : AParamsDict
  activation_quantization_method : QuantizationMethod
  activation_error_method : QuantizationErrorMethod
  activation_n_bits : Nat
  relu_bound_to_power_of_2 : Bool
  enable_activation_quantization : Bool
  activation_channel_equalization : Bool
  input_scaling : Bool
  min_threshold : Rat
  l_p_value : Nat
  shift_negative_activation_correction : Bool
  z_threshold : Rat
  shift_negative_ratio : Rat
  shift_negative_threshold_recalculation : Bool
deriving DecidableEq

namespace NodeActivationQuantizationConfig

/-- Property setter `activation_error_method.setter`: store the new value and
re-derive the bound parameter-computation function from the quantization
method via the registry. -/
def setActivationErrorMethod (R : Registry) (c : NodeActivationQuantizationConfig)
    (value : QuantizationErrorMethod) : NodeActivationQuantizationConfig :=
  { c with
    activation_error_method := value
    activation_quantization_params_fn :=
      R.getActivationQuantizationParamsFn c.activation_quantization_method }

/-- Constructor `NodeActivationQuantizationConfig.__init__`: fields are
assigned in source order; the assignment to `activation_error_method` runs
the property setter (the quantization method is already set at that point),
so the parameter-computation function passed in is immediately re-derived. -/
def mk' (R : Registry) (qc : QuantizationConfig) (op_cfg : OpQuantizationConfig)
    (activation_quantization_fn activation_quantization_params_fn : Option PyFn) :
    NodeActivationQuantizationConfig :=
  setActivationErrorMethod R
    { activation_quantization_fn := activation_quantization_fn
      activation_quantization_params_fn := activation_quantization_params_fn
      activation_quantization_params := []
      activation_quantization_method := op_cfg.activation_quantization_method
      activation_error_method := qc.activation_error_method
      activation_n_bits := op_cfg.activation_n_bits
      relu_bound_to_power_of_2 := qc.relu_bound_to_power_of_2
      enable_activation_quantization := op_cfg.enable_activation_quantization
      activation_channel_equalization := qc.activation_channel_equalization
      input_scaling := qc.input_scaling
      min_threshold := qc.min_threshold
      l_p_value := qc.l_p_value
      shift_negative_activation_correction := qc.shift_negative_activation_correction
      z_threshold := qc.z_threshold
      shift_negative_ratio := qc.shift_negative_ratio
      shift_negative_threshold_recalculation := qc.shift_negative_threshold_recalculation }
    qc.activation_error_method

/-- Method `set_activation_quantization_params_fn`: direct reassignment of the
bound parameter-computation function. -/
def setActivationQuantizationParamsFn (c : NodeActivationQuantizationConfig)
    (f : Option PyFn) : NodeActivationQuantizationConfig :=
  { c with activation_quantization_params_fn := f }

/-- Method `set_activation_quantization_param`: assert that activation
quantization is enabled, then merge-update the numeric parameter mapping. -/
def setActivationQuantizationParam (c : NodeActivationQuantizationConfig)
    (activation_params : AParamsDict) :
    Except PyErr NodeActivationQuantizationConfig :=
  if c.enable_activation_quantization then
    .ok { c with activation_quantization_params :=
            dictUpdate c.activation_quantization_params activation_params }
  else
    .error .assertErr

/-- Method `__eq__`: field-by-field comparison of the fourteen tracked resolved
fields (the two function slots by identity; the numeric parameter mapping is
not compared). -/
def eq (c other : NodeActivationQuantizationConfig) : Bool :=
  c.activation_quantization_fn == other.activation_quantization_fn &&
  c.activation_quantization_params_fn == other.activation_quantization_params_fn &&
  c.activation_error_method == other.activation_error_method &&
  c.activation_quantization_method == other.activation_quantization_method &&
  c.activation_n_bits == other.activation_n_bits &&
  c.enable_activation_quantization == other.enable_activation_quantization &&
  c.activation_channel_equalization == other.activation_channel_equalization &&
  c.input_scaling == other.input_scaling &&
  c.min_threshold == other.min_threshold &&
  c.l_p_value == other.l_p_value &&
  c.shift_negative_activation_correction == other.shift_negative_activation_correction &&
  c.z_threshold == other.z_threshold &&
  c.shift_negative_ratio == other.shift_negative_ratio &&
  c.shift_negative_threshold_recalculation == other.shift_negative_threshold_recalculation

/-- Method `__hash__`: the fourteen-field tuple handed to Python's `hash`;
equal tuples hash equal, so the tuple itself models the hash input. -/
def hashInput (c : NodeActivationQuantizationConfig) :
    Option PyFn × Option PyFn × QuantizationErrorMethod × QuantizationMethod ×
    Nat × Bool × Bool × Bool × Rat × Nat × Bool × Rat × Rat × Bool :=
  (c.activation_quantization_fn,
   c.activation_quantization_params_fn,
   c.activation_error_method,
   c.activation_quantization_method,
   c.activation_n_bits,
   c.enable_activation_quantization,
   c.activation_channel_equalization,
   c.input_scaling,
   c.min_threshold,
   c.l_p_value,
   c.shift_negative_activation_correction,
   c.z_threshold,
   c.shift_negative_ratio,
   c.shift_negative_threshold_recalculation)

end NodeActivationQuantizationConfig

/-- Resolved configuration of one weights attribute
(`WeightsAttrQuantizationConfig`).  The parameter-computation slot holds a
callable, since `calculate_and_set_weights_params` invokes it;
`weights_error_method` is the backing field of the Python property. -/
structure WeightsAttrQuantizationConfig where
  weights_quantization_fn : PyFn
  weights_quantization_params_fn : Option WParamsFn
  weights_channels_axis : Option (Int × Int)
  weights_quantization_params : ParamsDict
  weights_quantization_method : QuantizationMethod
  weights_error_method : QuantizationErrorMethod
  weights_n_bits : Nat
  weights_per_channel_threshold : Bool
  enable_weights_quantization : Bool
  l_p_value : Nat

namespace WeightsAttrQuantizationConfig

/-- Property setter `weights_error_method.setter`: store the new value and
re-derive the bound parameter-computation function from the quantization
method via the registry. -/
def setWeightsErrorMethod (R : Registry) (c : WeightsAttrQuantizationConfig)
    (value : QuantizationErrorMethod) : WeightsAttrQuantizationConfig :=
  { c with
    weights_error_method := value
    weights_quantization_params_fn :=
      R.getWeightsQuantizationParamsFn c.weights_quantization_method }

/-- Constructor `WeightsAttrQuantizationConfig.__init__`: both function slots
are resolved from the attribute's quantization method via the registry; the
assignment to `weights_error_method` runs the property setter (the
quantization method is already set at that point). -/
def mk' (R : Registry) (qc : QuantizationConfig)
    (weights_attr_cfg : AttributeQuantizationConfig)
    (weights_channels_axis : Option (Int × Int)) : WeightsAttrQuantizationConfig :=
  setWeightsErrorMethod R
    { weights_quantization_fn :=
        R.getWeightsQuantizationFn weights_attr_cfg.weights_quantization_method
      weights_quantization_params_fn :=
        R.getWeightsQuantizationParamsFn weights_attr_cfg.weights_quantization_method
      weights_channels_axis := weights_channels_axis
      weights_quantization_params := []
      weights_quantization_method := weights_attr_cfg.weights_quantization_method
      weights_error_method := qc.weights_error_method
      weights_n_bits := weights_attr_cfg.weights_n_bits
      weights_per_channel_threshold := weights_attr_cfg.weights_per_channel_threshold
      enable_weights_quantization := weights_attr_cfg.enable_weights_quantization
      l_p_value := qc.l_p_value }
    qc.weights_error_method

/-- Method `set_weights_quantization_params_fn`: direct reassignment of the
bound parameter-computation function. -/
def setWeightsQuantizationParamsFn (c : WeightsAttrQuantizationConfig)
    (f : Option WParamsFn) : WeightsAttrQuantizationConfig :=
  { c with weights_quantization_params_fn := f }

/-- Method `set_weights_quantization_param`: assert that weights quantization
is enabled, then merge-update the numeric parameter mapping. -/
def setWeightsQuantizationParam (c : WeightsAttrQuantizationConfig)
    (weights_params : ParamsDict) : Except PyErr WeightsAttrQuantizationConfig :=
  if c.enable_weights_quantization then
    .ok { c with weights_quantization_params :=
            dictUpdate c.weights_quantization_params weights_params }
  else
    .error .assertErr

/-- Keyword arguments of the call inside `calculate_and_set_weights_params`:
`per_channel` is the expression
`weights_per_channel_threshold and weights_channels_axis is not None`, and
`channel_axis` is `weights_channels_axis[0]` (commented in the source as the
output channel axis), supplied here as `ax0` after the subscript succeeded. -/
def calcArgs (c : WeightsAttrQuantizationConfig) (tensor_data : TensorData)
    (min_threshold : Rat) (ax0 : Int) : WParamsArgs :=
  { tensor_data := tensor_data
    p := c.l_p_value
    n_bits := c.weights_n_bits
    per_channel := c.weights_per_channel_threshold && c.weights_channels_axis.isSome
    channel_axis := ax0
    min_threshold := min_threshold }

/-- Method `calculate_and_set_weights_params`: assert that quantization is
enabled; if a parameter-computation function is bound, subscript the channel
axis pair at 0 (a `TypeError` when the pair is `None`) and merge the
function's result into the parameter mapping; otherwise merge an empty
mapping. -/
def calculateAndSetWeightsParams (c : WeightsAttrQuantizationConfig)
    (tensor_data : TensorData) (min_threshold : Rat) :
    Except PyErr WeightsAttrQuantizationConfig :=
  if c.enable_weights_quantization then
    match c.weights_quantization_params_fn with
    | some f =>
      match c.weights_channels_axis with
      | none => .error .typeErr
      | some ax =>
        c.setWeightsQuantizationParam (f (calcArgs c tensor_data min_threshold ax.1))
    | none => c.setWeightsQuantizationParam []
  else
    .error .assertErr

end WeightsAttrQuantizationConfig

/-- Declared weight attribute of a node: either a positional (constant)
attribute identified by an integer, or a named attribute identified by a
string. -/
inductive NodeAttr
  | pos (i : Nat)
  | name (s : String)
deriving DecidableEq

/-- Per-node weights configuration (`NodeWeightsQuantizationConfig`):
node-global knobs plus the named and positional attribute mappings. -/
structure NodeWeightsQuantizationConfig where
  min_threshold : Rat
  simd_size : Nat
  weights_second_moment_correction : Bool
  weights_bias_correction : Bool
  attributes_config_mapping : List (String × WeightsAttrQuantizationConfig)
  pos_attributes_config_mapping : List (Nat × WeightsAttrQuantizationConfig)

namespace NodeWeightsQuantizationConfig

/-- Resolution of one named attribute against the operator capability config,
as in the constructor's string branch: keys of
`op_cfg.attr_weights_configs_mapping` that are substrings of the node's
attribute name are collected; more than one match is a fatal configuration
error (`Logger.error` raises), zero matches fall back to the operator's
default attribute config, one match resolves to that key's config. -/
def resolveNamedAttrCfg (op_cfg : OpQuantizationConfig) (attr : String) :
    Except PyErr AttributeQuantizationConfig :=
  let attrs_included_in_name :=
    op_cfg.attr_weights_configs_mapping.filter (fun kv => strIn kv.1 attr)
  if 1 < attrs_included_in_name.length then
    .error (.fatalErr "Found multiple attribute in TPC OpConfig that are contained in the attribute name.")
  else
    match attrs_included_in_name with
    | [] => .ok op_cfg.default_weight_attr_config
    | kv :: _ => .ok kv.2

/-- One iteration of the constructor loop over `node_attrs_list`: a positional
attribute is fatal when the operator's default attribute config enables
weights quantization and otherwise gets a config built from that default; a
named attribute resolves through `resolveNamedAttrCfg`. -/
def mkStep (R : Registry) (qc : QuantizationConfig) (op_cfg : OpQuantizationConfig)
    (weights_channels_axis : Option (Int × Int)) (c : NodeWeightsQuantizationConfig)
    (attr : NodeAttr) : Except PyErr NodeWeightsQuantizationConfig :=
  match attr with
  | .pos i =>
    if op_cfg.default_weight_attr_config.enable_weights_quantization then
      .error (.criticalErr "Quantizing constant weights is not supported.")
    else
      .ok { c with pos_attributes_config_mapping :=
              (dictSet c.pos_attributes_config_mapping i
                (WeightsAttrQuantizationConfig.mk' R qc op_cfg.default_weight_attr_config
                  weights_channels_axis)) }
  | .name s =>
    match resolveNamedAttrCfg op_cfg s with
    | .error e => .error e
    | .ok attr_cfg =>
      .ok { c with attributes_config_mapping :=
              (dictSet c.attributes_config_mapping s
                (WeightsAttrQuantizationConfig.mk' R qc attr_cfg weights_channels_axis)) }

/-- Constructor `NodeWeightsQuantizationConfig.__init__`: copy the node-global
knobs, then resolve every declared attribute in order. -/
def mk' (R : Registry) (qc : QuantizationConfig) (op_cfg : OpQuantizationConfig)
    (weights_channels_axis : Option (Int × Int)) (node_attrs_list : List NodeAttr) :
    Except PyErr NodeWeightsQuantizationConfig :=
  node_attrs_list.foldlM (mkStep R qc op_cfg weights_channels_axis)
    { min_threshold := qc.min_threshold
      simd_size := op_cfg.simd_size
      weights_second_moment_correction := qc.weights_second_moment_correction
      weights_bias_correction := qc.weights_bias_correction
      attributes_config_mapping := []
      pos_attributes_config_mapping := [] }

/-- Helper `_extract_config_for_attributes_with_name`: the stored named
attributes whose key contains the queried name as a substring (it only warns
when several match, so no fatal outcome here). -/
def extractConfigForAttributesWithName (c : NodeWeightsQuantizationConfig)
    (attr_name : String) : List (String × WeightsAttrQuantizationConfig) :=
  c.attributes_config_mapping.filter (fun kv => strIn attr_name kv.1)

/-- Resolved attribute entry: the key under which the (shared, mutable) config
object is stored, together with the config.  Tracking the key models Python
reference semantics: mutating the object returned by `get_attr_config`
mutates the mapping entry at this key. -/
inductive AttrEntry
  | posEntry (i : Nat) (cfg : WeightsAttrQuantizationConfig)
  | nameEntry (k : String) (cfg : WeightsAttrQuantizationConfig)

/-- Config carried by an `AttrEntry`. -/
def AttrEntry.cfg : AttrEntry → WeightsAttrQuantizationConfig
  | .posEntry _ cfg => cfg
  | .nameEntry _ cfg => cfg

/-- Lookup of `get_attr_config`, additionally reporting the key of the found
entry: a positional key is a direct mapping lookup (absent is fatal); a
string key collects the stored keys containing it — exactly one match
returns it, zero matches are fatal, several matches warn and then require an
entry stored under the exact queried name (absent is fatal). -/
def getAttrEntry (c : NodeWeightsQuantizationConfig) :
    NodeAttr → Except PyErr AttrEntry
  | .pos i =>
    match c.pos_attributes_config_mapping.lookup i with
    | some cfg => .ok (.posEntry i cfg)
    | none => .error (.fatalErr "Weight attribute config could not be found.")
  | .name s =>
    match extractConfigForAttributesWithName c s with
    | [kv] => .ok (.nameEntry kv.1 kv.2)
    | [] => .error (.fatalErr "Weight attribute config could not be found.")
    | _ :: _ :: _ =>
      match c.attributes_config_mapping.lookup s with
      | some cfg => .ok (.nameEntry s cfg)
      | none => .error (.fatalErr "Weight attribute config could not be found.")

/-- Method `get_attr_config`: the config of the resolved entry. -/
def getAttrConfig (c : NodeWeightsQuantizationConfig) (attr_name : NodeAttr) :
    Except PyErr WeightsAttrQuantizationConfig :=
  (getAttrEntry c attr_name).map AttrEntry.cfg

/-- Method `set_attr_config`: unconditional insert-or-overwrite, keyed by the
kind of the attribute name. -/
def setAttrConfig (c : NodeWeightsQuantizationConfig) (attr_name : NodeAttr)
    (attr_qc : WeightsAttrQuantizationConfig) : NodeWeightsQuantizationConfig :=
  match attr_name with
  | .pos i =>
    { c with pos_attributes_config_mapping := dictSet c.pos_attributes_config_mapping i attr_qc }
  | .name s =>
    { c with attributes_config_mapping := dictSet c.attributes_config_mapping s attr_qc }

/-- Method `has_attribute_config`: for a positional key the truthiness of
`pos_attributes_config_mapping.get(attr_name, False)` (a stored config object
is truthy), for a string key whether at least one stored key contains the
queried name.  It never fails. -/
def hasAttributeConfig (c : NodeWeightsQuantizationConfig) : NodeAttr → Bool
  | .pos i => (c.pos_attributes_config_mapping.lookup i).isSome
  | .name s => decide (1 ≤ (extractConfigForAttributesWithName c s).length)

end NodeWeightsQuantizationConfig

/-- Value of the dynamic `config_parameter_name` / `config_parameter_value`
pair handed to the generic setter `set_quant_config_attr`: one constructor
per mutable field name that the claims exercise, each carrying the new
value, plus a constructor for a name that matches no field.  `hasattr` of a
config class against such a parameter is decided by the field sets below. -/
inductive ConfigParam
  | wNBits (v : Nat)
  | wPerChannel (v : Bool)
  | wEnable (v : Bool)
  | wErrorMethod (v : QuantizationErrorMethod)
  | wChannelsAxis (v : Option (Int × Int))
  | nwMinThreshold (v : Rat)
  | nwSimdSize (v : Nat)
  | nwSecondMoment (v : Bool)
  | nwBiasCorrection (v : Bool)
  | unknownName (s : String)

/-- Python `hasattr(attr_cfg, config_parameter_name)` for a
`WeightsAttrQuantizationConfig` instance. -/
def hasattrWAQC : ConfigParam → Bool
  | .wNBits _ => true
  | .wPerChannel _ => true
  | .wEnable _ => true
  | .wErrorMethod _ => true
  | .wChannelsAxis _ => true
  | _ => false

/-- Python `setattr(attr_cfg, config_parameter_name, config_parameter_value)`
on a `WeightsAttrQuantizationConfig`: assigning `weights_error_method` runs
the property setter (which re-derives the bound parameter-computation
function), every other field is a plain assignment.  Only called under a
`hasattrWAQC` guard; the remaining constructors leave the config unchanged. -/
def setattrWAQC (R : Registry) (c : WeightsAttrQuantizationConfig) :
    ConfigParam → WeightsAttrQuantizationConfig
  | .wNBits v => { c with weights_n_bits := v }
  | .wPerChannel v => { c with weights_per_channel_threshold := v }
  | .wEnable v => { c with enable_weights_quantization := v }
  | .wErrorMethod v => c.setWeightsErrorMethod R v
  | .wChannelsAxis v => { c with weights_channels_axis := v }
  | _ => c

/-- Python `hasattr(self, config_parameter_name)` for a
`NodeWeightsQuantizationConfig` instance (its node-global fields). -/
def hasattrNWQC : ConfigParam → Bool
  | .nwMinThreshold _ => true
  | .nwSimdSize _ => true
  | .nwSecondMoment _ => true
  | .nwBiasCorrection _ => true
  | _ => false

/-- Python `setattr(self, ...)` on the node-global fields of a
`NodeWeightsQuantizationConfig`. -/
def setattrNWQC (c : NodeWeightsQuantizationConfig) :
    ConfigParam → NodeWeightsQuantizationConfig
  | .nwMinThreshold v => { c with min_threshold := v }
  | .nwSimdSize v => { c with simd_size := v }
  | .nwSecondMoment v => { c with weights_second_moment_correction := v }
  | .nwBiasCorrection v => { c with weights_bias_correction := v }
  | _ => c

namespace NodeWeightsQuantizationConfig

/-- Base-class generic setter `BaseNodeQuantizationConfig.set_quant_config_attr`
applied to a `NodeWeightsQuantizationConfig`: overwrite the field if it
exists, otherwise warn and leave the object unchanged (never fatal). -/
def baseSetQuantConfigAttr (c : NodeWeightsQuantizationConfig) (p : ConfigParam) :
    NodeWeightsQuantizationConfig :=
  if hasattrNWQC p then setattrNWQC c p else c

/-- Write-back of a mutation of the shared config object resolved by
`getAttrEntry`: the mapping entry at the resolved key now holds the mutated
object. -/
def setEntryConfig (c : NodeWeightsQuantizationConfig) (e : AttrEntry)
    (newCfg : WeightsAttrQuantizationConfig) : NodeWeightsQuantizationConfig :=
  match e with
  | .posEntry i _ =>
    { c with pos_attributes_config_mapping := dictSet c.pos_attributes_config_mapping i newCfg }
  | .nameEntry k _ =>
    { c with attributes_config_mapping := dictSet c.attributes_config_mapping k newCfg }

/-- Override `set_quant_config_attr`: with no `attr_name` delegate to the
base-class generic setter; with an `attr_name`, guard on
`has_attribute_config` (absent attribute is fatal), resolve the attribute's
config via `get_attr_config` (which may itself be fatal), and apply the
generic setter to that nested config (warn-and-skip when the parameter name
is not a field of it). -/
def setQuantConfigAttr (R : Registry) (c : NodeWeightsQuantizationConfig)
    (p : ConfigParam) (attr_name : Option NodeAttr) :
    Except PyErr NodeWeightsQuantizationConfig :=
  match attr_name with
  | none => .ok (baseSetQuantConfigAttr c p)
  | some a =>
    if c.hasAttributeConfig a then
      match getAttrEntry c a with
      | .error e => .error e
      | .ok entry =>
        if hasattrWAQC p then
          .ok (setEntryConfig c entry (setattrWAQC R entry.cfg p))
        else
          .ok c
    else
      .error (.fatalErr "Weights attribute could not be found to set parameter.")

end NodeWeightsQuantizationConfig

/-- Constant `THRESHOLD` from `model_compression_toolkit.constants`. -/
def THRESHOLD : String := "threshold"

/-- Candidate quantization configuration of a node; the substitution only
touches `candidates_quantization_cfg[0].activation_quantization_cfg`. -/
structure CandidateNodeQuantizationConfig where
  activation_quantization_cfg : NodeActivationQuantizationConfig
deriving DecidableEq

/-- Modelled from the spec: the node abstraction `BaseNode` of the graph
framework (an external collaborator, not among the sources under study),
reduced to what the substitution reads and writes: an identity and the list
of candidate quantization configurations. -/
structure BaseNode where
  id : Nat
  candidates_quantization_cfg : List CandidateNodeQuantizationConfig
deriving DecidableEq

/-- Modelled from the spec: the graph abstraction (external collaborator)
exposing predecessor/successor queries; a simple directed graph over nodes
identified by `id`. -/
structure Graph where
  nodes : List BaseNode
  edges : List (Nat × Nat)
deriving DecidableEq

/-- Modelled from the spec: predecessor query `graph.get_prev_nodes(node)` —
the direct predecessors of a node. -/
def Graph.getPrevNodes (g : Graph) (n : BaseNode) : List BaseNode :=
  g.nodes.filter (fun p => g.edges.contains (p.id, n.id))

/-- Modelled from the spec: successor query `graph.get_next_nodes(node)` —
the consumer nodes of a node; its length is the node's fan-out. -/
def Graph.getNextNodes (g : Graph) (n : BaseNode) : List BaseNode :=
  g.nodes.filter (fun m => g.edges.contains (n.id, m.id))

/-- Update of one graph node by `threshold_updater.substitute`'s loop body: a
direct predecessor of the matched node with fan-out one gets the matched
node's threshold stored into
`candidates_quantization_cfg[0].activation_quantization_cfg.activation_quantization_params[THRESHOLD]`
(an index error — `none` — if it has no candidate configs); every other node
is left untouched. -/
def updatePrevNode (g : Graph) (nodeId : Nat) (t : Option Rat) (p : BaseNode) :
    Option BaseNode :=
  if g.edges.contains (p.id, nodeId) && ((g.getNextNodes p).length == 1) then
    match p.candidates_quantization_cfg with
    | [] => none
    | c :: rest =>
      some { p with candidates_quantization_cfg :=
        ({ c with activation_quantization_cfg :=
          { c.activation_quantization_cfg with activation_quantization_params :=
            (dictSet c.activation_quantization_cfg.activation_quantization_params
              THRESHOLD t) } } :: rest) }
  else
    some p

/-- Method `threshold_updater.substitute` of the concat-threshold-update
substitution: read the matched node's calibrated activation threshold from
its first candidate config (`dict.get`, so `None` when absent), then
overwrite the threshold of every direct predecessor with fan-out one.  The
result is `none` when a touched candidate list is empty (a Python index
error). -/
def substitute (g : Graph) (node : BaseNode) : Option Graph :=
  match node.candidates_quantization_cfg with
  | [] => none
  | c0 :: _ =>
    let concat_threshold :=
      pyDictGet c0.activation_quantization_cfg.activation_quantization_params THRESHOLD
    (g.nodes.mapM (updatePrevNode g node.id concat_threshold)).map
      (fun ns => { g with nodes := ns })

/-! ### Concrete fixtures used by witnesses and counterexamples -/

/-- Concrete global user policy. -/
def fixedQC : QuantizationConfig where
  activation_error_method := .MSE
  weights_error_method := .MSE
  relu_bound_to_power_of_2 := false
  activation_channel_equalization := false
  input_scaling := false
  min_threshold := 1 / 2
  l_p_value := 2
  shift_negative_activation_correction := false
  z_threshold := 8
  shift_negative_ratio := 1 / 4
  shift_negative_threshold_recalculation := false
  weights_second_moment_correction := false
  weights_bias_correction := true

/-- Concrete attribute capability config with a selectable enable flag. -/
def fixedAttrCfg (enable : Bool) : AttributeQuantizationConfig where
  weights_quantization_method := .POWER_OF_TWO
  weights_n_bits := 8
  weights_per_channel_threshold := true
  enable_weights_quantization := enable

/-- Concrete operator capability config; the attribute mapping declares a
"kernel" attribute and a "bias" attribute. -/
def fixedOpCfg : OpQuantizationConfig where
  activation_quantization_method := .POWER_OF_TWO
  activation_n_bits := 8
  enable_activation_quantization := true
  simd_size := 32
  default_weight_attr_config := fixedAttrCfg false
  attr_weights_configs_mapping :=
    [("kernel", fixedAttrCfg true), ("bias", fixedAttrCfg false)]

/-- Concrete registry whose weights parameter-computation lookup finds no
function (a method needing no statistical calibration). -/
def noCalibRegistry : Registry where
  getActivationQuantizationParamsFn := fun m => some (.actParams m)
  getWeightsQuantizationFn := fun m => .wQuant m
  getWeightsQuantizationParamsFn := fun _ => none

/-- Concrete weights parameter-computation function that records the arguments
it was invoked with into the parameter mapping. -/
def recordFn : WParamsFn := fun args =>
  [("axis_seen", (args.channel_axis : Rat)),
   ("per_channel_seen", if args.per_channel then 1 else 0)]

/-- Concrete registry whose weights parameter-computation lookup always finds
`recordFn`. -/
def recordingRegistry : Registry where
  getActivationQuantizationParamsFn := fun m => some (.actParams m)
  getWeightsQuantizationFn := fun m => .wQuant m
  getWeightsQuantizationParamsFn := fun _ => some recordFn

/-! ### C4: the error-method setters re-derive the bound function -/

/-- C4: setting `activation_error_method` (or `weights_error_method`),
including at construction, re-derives the bound parameter-computation
function by a pure registry lookup on the quantization method alone: two
configs with the same quantization method bind the identical function after
any error-method assignments, and a function passed at construction or set
through the dedicated setter does not survive a subsequent assignment to the
error-method property. -/
theorem c4_error_method_pure_rebind (R : Registry)
    (c1 c2 : NodeActivationQuantizationConfig) (e1 e2 : QuantizationErrorMethod)
    (w1 w2 : WeightsAttrQuantizationConfig) (f1 f2 : QuantizationErrorMethod)
    (qc : QuantizationConfig) (op : OpQuantizationConfig) (fn pfn g : Option PyFn)
    (acfg : AttributeQuantizationConfig) (ax : Option (Int × Int)) (gw : Option WParamsFn)
    (hact : c1.activation_quantization_method = c2.activation_quantization_method)
    (hw : w1.weights_quantization_method = w2.weights_quantization_method) :
    (c1.setActivationErrorMethod R e1).activation_quantization_params_fn =
      (c2.setActivationErrorMethod R e2).activation_quantization_params_fn ∧
    (w1.setWeightsErrorMethod R f1).weights_quantization_params_fn =
      (w2.setWeightsErrorMethod R f2).weights_quantization_params_fn ∧
    (NodeActivationQuantizationConfig.mk' R qc op fn pfn).activation_quantization_params_fn =
      R.getActivationQuantizationParamsFn op.activation_quantization_method ∧
    (WeightsAttrQuantizationConfig.mk' R qc acfg ax).weights_quantization_params_fn =
      R.getWeightsQuantizationParamsFn acfg.weights_quantization_method ∧
    ((c1.setActivationQuantizationParamsFn g).setActivationErrorMethod R e1).activation_quantization_params_fn =
      R.getActivationQuantizationParamsFn c1.activation_quantization_method ∧
    ((w1.setWeightsQuantizationParamsFn gw).setWeightsErrorMethod R f1).weights_quantization_params_fn =
      R.getWeightsQuantizationParamsFn w1.weights_quantization_method := by
  refine ⟨?_, ?_, ?_, ?_, ?_, ?_⟩
  · simp [NodeActivationQuantizationConfig.setActivationErrorMethod, hact]
  · simp [WeightsAttrQuantizationConfig.setWeightsErrorMethod, hw]
  · simp [NodeActivationQuantizationConfig.mk',
          NodeActivationQuantizationConfig.setActivationErrorMethod]
  · simp [WeightsAttrQuantizationConfig.mk',
          WeightsAttrQuantizationConfig.setWeightsErrorMethod]
  · simp [NodeActivationQuantizationConfig.setActivationErrorMethod,
          NodeActivationQuantizationConfig.setActivationQuantizationParamsFn]
  · simp [WeightsAttrQuantizationConfig.setWeightsErrorMethod,
          WeightsAttrQuantizationConfig.setWeightsQuantizationParamsFn]

/-- Concrete activation config for the C4 witness, constructed with a custom
parameter-computation function passed in. -/
def c4naqc : NodeActivationQuantizationConfig :=
  NodeActivationQuantizationConfig.mk' noCalibRegistry fixedQC fixedOpCfg none (some (.custom 7))

/-- Concrete weights attribute config for the C4 witness. -/
def c4waqc : WeightsAttrQuantizationConfig :=
  WeightsAttrQuantizationConfig.mk' noCalibRegistry fixedQC (fixedAttrCfg true) (some (3, 2))

/-- C4 witness: the rebinding facts at a concrete registry, concrete configs
and two different error methods. -/
theorem c4_witness :
    (c4naqc.setActivationErrorMethod noCalibRegistry .KL).activation_quantization_params_fn =
      (c4naqc.setActivationErrorMethod noCalibRegistry .NOISE).activation_quantization_params_fn ∧
    (c4waqc.setWeightsErrorMethod noCalibRegistry .KL).weights_quantization_params_fn =
      (c4waqc.setWeightsErrorMethod noCalibRegistry .NOISE).weights_quantization_params_fn ∧
    (NodeActivationQuantizationConfig.mk' noCalibRegistry fixedQC fixedOpCfg none
        (some (.custom 7))).activation_quantization_params_fn =
      noCalibRegistry.getActivationQuantizationParamsFn fixedOpCfg.activation_quantization_method ∧
    (WeightsAttrQuantizationConfig.mk' noCalibRegistry fixedQC (fixedAttrCfg true)
        (some (3, 2))).weights_quantization_params_fn =
      noCalibRegistry.getWeightsQuantizationParamsFn (fixedAttrCfg true).weights_quantization_method ∧
    ((c4naqc.setActivationQuantizationParamsFn (some (.custom 8))).setActivationErrorMethod
        noCalibRegistry .KL).activation_quantization_params_fn =
      noCalibRegistry.getActivationQuantizationParamsFn c4naqc.activation_quantization_method ∧
    ((c4waqc.setWeightsQuantizationParamsFn none).setWeightsErrorMethod
        noCalibRegistry .KL).weights_quantization_params_fn =
      noCalibRegistry.getWeightsQuantizationParamsFn c4waqc.weights_quantization_method :=
  c4_error_method_pure_rebind noCalibRegistry c4naqc c4naqc .KL .NOISE c4waqc c4waqc .KL .NOISE
    fixedQC fixedOpCfg none (some (.custom 7)) (some (.custom 8)) (fixedAttrCfg true)
    (some (3, 2)) none rfl rfl

/-! ### C8: structural equality and hashing of activation configs -/

/-- C8: two `NodeActivationQuantizationConfig` instances constructed from
identical inputs are equal (with equal hash inputs), equality is decided by
exactly the fourteen tracked resolved fields — so changing any one of them on
an otherwise-equal config breaks equality — and equal configs have equal
hash inputs. -/
theorem c8_structural_equality (R : Registry) (qc : QuantizationConfig)
    (op : OpQuantizationConfig) (fn pfn : Option PyFn)
    (c d : NodeActivationQuantizationConfig) :
    NodeActivationQuantizationConfig.eq
        (NodeActivationQuantizationConfig.mk' R qc op fn pfn)
        (NodeActivationQuantizationConfig.mk' R qc op fn pfn) = true ∧
    (NodeActivationQuantizationConfig.mk' R qc op fn pfn).hashInput =
      (NodeActivationQuantizationConfig.mk' R qc op fn pfn).hashInput ∧
    (NodeActivationQuantizationConfig.eq c d = true ↔
      (c.activation_quantization_fn = d.activation_quantization_fn ∧
       c.activation_quantization_params_fn = d.activation_quantization_params_fn ∧
       c.activation_error_method = d.activation_error_method ∧
       c.activation_quantization_method = d.activation_quantization_method ∧
       c.activation_n_bits = d.activation_n_bits ∧
       c.enable_activation_quantization = d.enable_activation_quantization ∧
       c.activation_channel_equalization = d.activation_channel_equalization ∧
       c.input_scaling = d.input_scaling ∧
       c.min_threshold = d.min_threshold ∧
       c.l_p_value = d.l_p_value ∧
       c.shift_negative_activation_correction = d.shift_negative_activation_correction ∧
       c.z_threshold = d.z_threshold ∧
       c.shift_negative_ratio = d.shift_negative_ratio ∧
       c.shift_negative_threshold_recalculation = d.shift_negative_threshold_recalculation)) ∧
    (NodeActivationQuantizationConfig.eq c d = true →
      c.hashInput = d.hashInput) := by
  have hiff : ∀ a b : NodeActivationQuantizationConfig,
      NodeActivationQuantizationConfig.eq a b = true ↔
      (a.activation_quantization_fn = b.activation_quantization_fn ∧
       a.activation_quantization_params_fn = b.activation_quantization_params_fn ∧
       a.activation_error_method = b.activation_error_method ∧
       a.activation_quantization_method = b.activation_quantization_method ∧
       a.activation_n_bits = b.activation_n_bits ∧
       a.enable_activation_quantization = b.enable_activation_quantization ∧
       a.activation_channel_equalization = b.activation_channel_equalization ∧
       a.input_scaling = b.input_scaling ∧
       a.min_threshold = b.min_threshold ∧
       a.l_p_value = b.l_p_value ∧
       a.shift_negative_activation_correction = b.shift_negative_activation_correction ∧
       a.z_threshold = b.z_threshold ∧
       a.shift_negative_ratio = b.shift_negative_ratio ∧
       a.shift_negative_threshold_recalculation = b.shift_negative_threshold_recalculation) := by
    intro a b
    simp [NodeActivationQuantizationConfig.eq, Bool.and_eq_true, beq_iff_eq, and_assoc]
  refine ⟨?_, rfl, hiff c d, ?_⟩
  · exact (hiff _ _).mpr ⟨rfl, rfl, rfl, rfl, rfl, rfl, rfl, rfl, rfl, rfl, rfl, rfl, rfl, rfl⟩
  · intro h
    obtain ⟨h1, h2, h3, h4, h5, h6, h7, h8, h9, h10, h11, h12, h13, h14⟩ := (hiff c d).mp h
    simp [NodeActivationQuantizationConfig.hashInput,
          h1, h2, h3, h4, h5, h6, h7, h8, h9, h10, h11, h12, h13, h14]

/-- Concrete activation config for the C8 witness. -/
def c8a : NodeActivationQuantizationConfig :=
  NodeActivationQuantizationConfig.mk' noCalibRegistry fixedQC fixedOpCfg none none

/-- Activation config equal to `c8a` except for one tracked field. -/
def c8b : NodeActivationQuantizationConfig :=
  { c8a with activation_n_bits := 4 }

/-- C8 witness: at concrete configs, identical construction compares equal
with equal hash input, while changing one tracked field (the bit-width)
breaks equality. -/
theorem c8_witness :
    NodeActivationQuantizationConfig.eq c8a c8a = true ∧
    c8a.hashInput = c8a.hashInput ∧
    NodeActivationQuantizationConfig.eq c8a c8b = false := by
  have h := c8_structural_equality noCalibRegistry fixedQC fixedOpCfg none none c8a c8b
  refine ⟨h.1, rfl, ?_⟩
  decide

/-! ### C3: contract of calculate_and_set_weights_params -/

/-- Concrete weights attribute config with quantization enabled and no bound
parameter-computation function. -/
def c3base : WeightsAttrQuantizationConfig :=
  WeightsAttrQuantizationConfig.mk' noCalibRegistry fixedQC (fixedAttrCfg true) (some (3, 2))

/-- C3 counterexample: on a config with quantization enabled and no bound
parameter-computation function whose numeric-parameter mapping was populated
through `set_weights_quantization_param`, `calculate_and_set_weights_params`
succeeds but the mapping is NOT empty afterwards — the code merges an empty
mapping instead of clearing, so the prior parameters survive, contradicting
the claim at this input. -/
theorem c3_counterexample :
    c3base.enable_weights_quantization = true ∧
    c3base.weights_quantization_params_fn = none ∧
    (c3base.setWeightsQuantizationParam [("threshold", 1)]).map
        (fun c => (c.calculateAndSetWeightsParams [] 0).map
          (fun c2 => c2.weights_quantization_params)) =
      .ok (.ok [("threshold", 1)]) ∧
    ([("threshold", (1 : Rat))] : ParamsDict) ≠ ([] : ParamsDict) := by
  refine ⟨rfl, rfl, rfl, by decide⟩

/-- C3 (amended): `calculate_and_set_weights_params` with quantization
disabled always fails the assertion; with quantization enabled and no bound
parameter-computation function it leaves the config — in particular the
numeric-parameter mapping — unchanged (so the mapping is empty whenever it
was empty before the call, as after construction); with a bound function and
a channel-axis pair it merges the function's result, and the per-channel
flag passed to the function is true iff both `weights_per_channel_threshold`
is true and the channel axis is not `None`. -/
theorem c3_calculate_contract (c : WeightsAttrQuantizationConfig)
    (t : TensorData) (m : Rat) :
    (c.enable_weights_quantization = false →
      c.calculateAndSetWeightsParams t m = .error .assertErr) ∧
    (c.enable_weights_quantization = true →
      c.weights_quantization_params_fn = none →
      c.calculateAndSetWeightsParams t m = .ok c) ∧
    (∀ f ax, c.enable_weights_quantization = true →
      c.weights_quantization_params_fn = some f →
      c.weights_channels_axis = some ax →
      c.calculateAndSetWeightsParams t m =
        .ok { c with weights_quantization_params :=
                (dictUpdate c.weights_quantization_params (f (c.calcArgs t m ax.1))) } ∧
      (c.calcArgs t m ax.1).per_channel =
        (c.weights_per_channel_threshold && c.weights_channels_axis.isSome)) := by
  refine ⟨?_, ?_, ?_⟩
  · intro hdis
    simp [WeightsAttrQuantizationConfig.calculateAndSetWeightsParams, hdis]
  · intro hen hfn
    cases c
    simp_all [WeightsAttrQuantizationConfig.calculateAndSetWeightsParams,
              WeightsAttrQuantizationConfig.setWeightsQuantizationParam, dictUpdate]
  · intro f ax hen hfn hax
    refine ⟨?_, rfl⟩
    simp [WeightsAttrQuantizationConfig.calculateAndSetWeightsParams, hen, hfn, hax,
          WeightsAttrQuantizationConfig.setWeightsQuantizationParam]

/-- Concrete weights attribute config with quantization disabled. -/
def c3disabled : WeightsAttrQuantizationConfig :=
  WeightsAttrQuantizationConfig.mk' noCalibRegistry fixedQC (fixedAttrCfg false) (some (3, 2))

/-- Concrete weights attribute config with quantization enabled, the recording
parameter-computation function bound, and channel-axis pair `(3, 2)`. -/
def c6cfg : WeightsAttrQuantizationConfig :=
  WeightsAttrQuantizationConfig.mk' recordingRegistry fixedQC (fixedAttrCfg true) (some (3, 2))

/-- C3 witness: the amended contract at concrete configs — a disabled config
fails the assertion, an enabled config with no bound function is unchanged,
and the per-channel flag equals the conjunction of the per-channel setting
and axis presence. -/
theorem c3_witness :
    c3disabled.enable_weights_quantization = false ∧
    c3disabled.calculateAndSetWeightsParams [] 0 = .error .assertErr ∧
    c3base.calculateAndSetWeightsParams [] 0 = .ok c3base ∧
    (c6cfg.calcArgs [] 0 3).per_channel =
      (c6cfg.weights_per_channel_threshold && c6cfg.weights_channels_axis.isSome) := by
  have h1 := (c3_calculate_contract c3disabled [] 0).1 rfl
  have h2 := (c3_calculate_contract c3base [] 0).2.1 rfl rfl
  have h3 := ((c3_calculate_contract c6cfg [] 0).2.2 recordFn (3, 2) rfl rfl rfl).2
  exact ⟨rfl, h1, h2, h3⟩

/-! ### C6: which component of the channel-axis pair feeds per-channel computation -/

/-- Claim C6 as written: the channel-axis pair is read as
`(input_axis, output_axis)` and the output axis — under that reading the
SECOND component — is what feeds the per-channel computation.  Definition
follows the spec's words, to be compared with the source behavior. -/
def specC6ChannelAxisArg (axisPair : Int × Int) : Int :=
  axisPair.2

/-- C6 counterexample: with the channel-axis pair `(3, 2)` the code hands the
bound function element 0 of the pair (the value 3, the output axis per the
source's own comment), while the claim's reading of the pair as
`(input_axis, output_axis)` demands the second component (the value 2); the
two disagree at this input. -/
theorem c6_counterexample :
    c6cfg.weights_channels_axis = some (3, 2) ∧
    (c6cfg.calculateAndSetWeightsParams [] 0).map
        (fun c => c.weights_quantization_params) =
      .ok [("axis_seen", 3), ("per_channel_seen", 1)] ∧
    specC6ChannelAxisArg (3, 2) = 2 ∧
    ((3 : Rat) = (2 : Rat) → False) := by
  refine ⟨rfl, rfl, rfl, by norm_num⟩

/-- C6 (amended): the channel-axis pair is `(output_axis, input_axis)`; when a
parameter-computation function is bound, `calculate_and_set_weights_params`
passes it the FIRST component of the pair (the output axis) as the
channel-axis argument, and the second component (the input axis) never feeds
the per-channel computation. -/
theorem c6_output_axis_is_first_component (c : WeightsAttrQuantizationConfig)
    (t : TensorData) (m : Rat) (f : WParamsFn) (ax : Int × Int)
    (hen : c.enable_weights_quantization = true)
    (hfn : c.weights_quantization_params_fn = some f)
    (hax : c.weights_channels_axis = some ax) :
    c.calculateAndSetWeightsParams t m =
      c.setWeightsQuantizationParam (f (c.calcArgs t m ax.1)) ∧
    (c.calcArgs t m ax.1).channel_axis = ax.1 := by
  refine ⟨?_, rfl⟩
  simp [WeightsAttrQuantizationConfig.calculateAndSetWeightsParams, hen, hfn, hax]

/-- C6 witness: the amended statement at the concrete config with axis pair
`(3, 2)`: the recorded channel-axis argument is 3, the first component. -/
theorem c6_witness :
    c6cfg.calculateAndSetWeightsParams [] 0 =
      c6cfg.setWeightsQuantizationParam (recordFn (c6cfg.calcArgs [] 0 3)) ∧
    (c6cfg.calcArgs [] 0 3).channel_axis = 3 :=
  c6_output_axis_is_first_component c6cfg [] 0 recordFn (3, 2) rfl rfl rfl

/-! ### C10: a channel axis is a precondition whenever a params function is bound -/

/-- C10: with quantization enabled and a bound parameter-computation function,
`calculate_and_set_weights_params` unconditionally subscripts the channel-axis
pair at 0 — regardless of `weights_per_channel_threshold` — so the call
crashes (`TypeError`) whenever the channel axis is `None`, and succeeds
whenever it is present. -/
theorem c10_none_axis_crashes (c : WeightsAttrQuantizationConfig)
    (t : TensorData) (m : Rat) (f : WParamsFn)
    (hen : c.enable_weights_quantization = true)
    (hfn : c.weights_quantization_params_fn = some f) :
    (c.weights_channels_axis = none →
      c.calculateAndSetWeightsParams t m = .error .typeErr) ∧
    (∀ ax, c.weights_channels_axis = some ax →
      c.calculateAndSetWeightsParams t m =
        .ok { c with weights_quantization_params :=
                (dictUpdate c.weights_quantization_params (f (c.calcArgs t m ax.1))) }) := by
  constructor
  · intro hax
    simp [WeightsAttrQuantizationConfig.calculateAndSetWeightsParams, hen, hfn, hax]
  · intro ax hax
    simp [WeightsAttrQuantizationConfig.calculateAndSetWeightsParams, hen, hfn, hax,
          WeightsAttrQuantizationConfig.setWeightsQuantizationParam]

/-- Concrete enabled config with a bound function, per-channel thresholds OFF
and no channel axis: the call still crashes. -/
def c10cfg : WeightsAttrQuantizationConfig :=
  WeightsAttrQuantizationConfig.mk' recordingRegistry fixedQC
    { fixedAttrCfg true with weights_per_channel_threshold := false } none

/-- C10 witness: the crash at a concrete config with `None` channel axis and
per-channel disabled, and success at a concrete config with an axis pair. -/
theorem c10_witness :
    c10cfg.enable_weights_quantization = true ∧
    c10cfg.weights_per_channel_threshold = false ∧
    c10cfg.weights_channels_axis = none ∧
    c10cfg.calculateAndSetWeightsParams [] 0 = .error .typeErr ∧
    c6cfg.calculateAndSetWeightsParams [] 0 =
      .ok { c6cfg with weights_quantization_params :=
              (dictUpdate c6cfg.weights_quantization_params
                (recordFn (c6cfg.calcArgs [] 0 3))) } := by
  have h := c10_none_axis_crashes c10cfg [] 0 recordFn rfl rfl
  have h2 := c10_none_axis_crashes c6cfg [] 0 recordFn rfl rfl
  exact ⟨rfl, rfl, rfl, h.1 rfl, h2.2 (3, 2) rfl⟩

/-! ### C2 and C9: attribute lookup -/

/-- Helper: a lookup on an association list succeeds exactly when some pair
with that key is a member. -/
theorem lookup_isSome_iff_mem {K V : Type} [DecidableEq K] (l : List (K × V)) (k : K) :
    (l.lookup k).isSome = true ↔ ∃ v, (k, v) ∈ l := by
  induction l with
  | nil => simp [List.lookup]
  | cons kv rest ih =>
    rcases kv with ⟨k', v'⟩
    rcases eq_or_ne k k' with h | h
    · subst h
      simp [List.lookup]
    · have hb : (k == k') = false := beq_eq_false_iff_ne.mpr h
      simp [List.lookup, hb, ih, h]

/-- C2: case analysis of `get_attr_config` — an integer key is a direct
positional lookup (absent is fatal); a string key matched by zero stored keys
is fatal, matched by exactly one stored entry returns that entry's config,
and matched by more than one stored key returns the config stored under the
exact queried name when present and is fatal otherwise. -/
theorem c2_get_attr_config_cases (c : NodeWeightsQuantizationConfig)
    (i : Nat) (s : String) (cfg : WeightsAttrQuantizationConfig) :
    (c.pos_attributes_config_mapping.lookup i = some cfg →
      c.getAttrConfig (.pos i) = .ok cfg) ∧
    (c.pos_attributes_config_mapping.lookup i = none →
      c.getAttrConfig (.pos i) =
        .error (.fatalErr "Weight attribute config could not be found.")) ∧
    (c.extractConfigForAttributesWithName s = [] →
      c.getAttrConfig (.name s) =
        .error (.fatalErr "Weight attribute config could not be found.")) ∧
    (∀ k cfg1, c.extractConfigForAttributesWithName s = [(k, cfg1)] →
      c.getAttrConfig (.name s) = .ok cfg1) ∧
    (1 < (c.extractConfigForAttributesWithName s).length →
      ((c.attributes_config_mapping.lookup s = some cfg →
          c.getAttrConfig (.name s) = .ok cfg) ∧
       (c.attributes_config_mapping.lookup s = none →
          c.getAttrConfig (.name s) =
            .error (.fatalErr "Weight attribute config could not be found.")))) := by
  refine ⟨?_, ?_, ?_, ?_, ?_⟩
  · intro h
    simp [NodeWeightsQuantizationConfig.getAttrConfig,
          NodeWeightsQuantizationConfig.getAttrEntry, h, Except.map,
          NodeWeightsQuantizationConfig.AttrEntry.cfg]
  · intro h
    simp [NodeWeightsQuantizationConfig.getAttrConfig,
          NodeWeightsQuantizationConfig.getAttrEntry, h, Except.map]
  · intro h
    simp [NodeWeightsQuantizationConfig.getAttrConfig,
          NodeWeightsQuantizationConfig.getAttrEntry, h, Except.map]
  · intro k cfg1 h
    simp [NodeWeightsQuantizationConfig.getAttrConfig,
          NodeWeightsQuantizationConfig.getAttrEntry, h, Except.map,
          NodeWeightsQuantizationConfig.AttrEntry.cfg]
  · intro hlen
    rcases hE : c.extractConfigForAttributesWithName s with _ | ⟨a, _ | ⟨b, rest⟩⟩
    · rw [hE] at hlen; simp at hlen
    · rw [hE] at hlen; simp at hlen
    · constructor
      · intro h
        simp [NodeWeightsQuantizationConfig.getAttrConfig,
              NodeWeightsQuantizationConfig.getAttrEntry, hE, h, Except.map,
              NodeWeightsQuantizationConfig.AttrEntry.cfg]
      · intro h
        simp [NodeWeightsQuantizationConfig.getAttrConfig,
              NodeWeightsQuantizationConfig.getAttrEntry, hE, h, Except.map]

/-- Concrete node weights config for lookup witnesses: two stored keys contain
"kernel" (with an exact "kernel" entry present), one key contains "bias",
and position 1 is a stored positional attribute. -/
def c2cfg : NodeWeightsQuantizationConfig where
  min_threshold := 1 / 2
  simd_size := 32
  weights_second_moment_correction := false
  weights_bias_correction := true
  attributes_config_mapping := [("kernel", c3base), ("kernel_2", c3disabled), ("bias", c10cfg)]
  pos_attributes_config_mapping := [(1, c3disabled)]

/-- C2 witness: the five lookup cases at the concrete config — positional hit
and miss, unique substring match, multiple matches resolved by the exact
name, and a zero-match fatal error. -/
theorem c2_witness :
    c2cfg.getAttrConfig (.pos 1) = .ok c3disabled ∧
    c2cfg.getAttrConfig (.pos 7) =
      .error (.fatalErr "Weight attribute config could not be found.") ∧
    c2cfg.getAttrConfig (.name "bias") = .ok c10cfg ∧
    c2cfg.getAttrConfig (.name "kernel") = .ok c3base ∧
    c2cfg.getAttrConfig (.name "gamma") =
      .error (.fatalErr "Weight attribute config could not be found.") := by
  have h1 := c2_get_attr_config_cases c2cfg 1 "bias" c3disabled
  have h2 := c2_get_attr_config_cases c2cfg 7 "gamma" c3base
  have h3 := c2_get_attr_config_cases c2cfg 1 "kernel" c3base
  exact ⟨h1.1 rfl, h2.2.1 rfl, (h1.2.2.2.1 "bias" c10cfg rfl),
         (h3.2.2.2.2 (by decide)).1 rfl, h2.2.2.1 rfl⟩

/-- C9: `has_attribute_config` is a boolean presence check that never fails:
it is true exactly when a matching attribute config exists (a stored
positional entry for an integer key; for a string key a stored key containing
the queried name as a substring), and whenever `get_attr_config` succeeds,
`has_attribute_config` is true. -/
theorem c9_has_attribute_config_boolean (c : NodeWeightsQuantizationConfig)
    (a : NodeAttr) :
    (c.hasAttributeConfig a = true ↔
      (match a with
       | .pos i => ∃ cfg, (i, cfg) ∈ c.pos_attributes_config_mapping
       | .name s => ∃ k cfg, (k, cfg) ∈ c.attributes_config_mapping ∧ strIn s k = true)) ∧
    (∀ cfg, c.getAttrConfig a = .ok cfg → c.hasAttributeConfig a = true) := by
  constructor
  · cases a with
    | pos i =>
      simp only [NodeWeightsQuantizationConfig.hasAttributeConfig]
      exact lookup_isSome_iff_mem c.pos_attributes_config_mapping i
    | name s =>
      simp only [NodeWeightsQuantizationConfig.hasAttributeConfig, decide_eq_true_eq]
      constructor
      · intro hlen
        have hne : c.extractConfigForAttributesWithName s ≠ [] := by
          intro hnil
          rw [hnil] at hlen
          simp at hlen
        obtain ⟨kv, hkv⟩ := List.exists_mem_of_ne_nil _ hne
        have := List.mem_filter.mp hkv
        exact ⟨kv.1, kv.2, this.1, this.2⟩
      · rintro ⟨k, cfg, hmem, hin⟩
        have : (k, cfg) ∈ c.extractConfigForAttributesWithName s :=
          List.mem_filter.mpr ⟨hmem, hin⟩
        calc 1 ≤ 1 := le_refl 1
        _ ≤ (c.extractConfigForAttributesWithName s).length :=
          List.length_pos.mpr (List.ne_nil_of_mem this)
  · intro cfg hok
    cases a with
    | pos i =>
      simp only [NodeWeightsQuantizationConfig.getAttrConfig,
                 NodeWeightsQuantizationConfig.getAttrEntry] at hok
      rcases hL : c.pos_attributes_config_mapping.lookup i with _ | v
      · rw [hL] at hok; simp [Except.map] at hok
      · simp [NodeWeightsQuantizationConfig.hasAttributeConfig, hL]
    | name s =>
      simp only [NodeWeightsQuantizationConfig.getAttrConfig,
                 NodeWeightsQuantizationConfig.getAttrEntry] at hok
      rcases hE : c.extractConfigForAttributesWithName s with _ | ⟨a1, _ | ⟨b1, rest⟩⟩ <;>
        rw [hE] at hok
      · simp [Except.map] at hok
      · simp [NodeWeightsQuantizationConfig.hasAttributeConfig, hE]
      · simp [NodeWeightsQuantizationConfig.hasAttributeConfig, hE]

/-- C9 witness: boolean presence outcomes at the concrete config, including a
true outcome obtained through the characterization at a stored key that
contains the queried name. -/
theorem c9_witness :
    c2cfg.hasAttributeConfig (.pos 1) = true ∧
    c2cfg.hasAttributeConfig (.pos 7) = false ∧
    c2cfg.hasAttributeConfig (.name "kernel") = true ∧
    c2cfg.hasAttributeConfig (.name "gamma") = false := by
  have h := c9_has_attribute_config_boolean c2cfg (.name "kernel")
  refine ⟨by decide, by decide, ?_, by decide⟩
  exact h.1.mpr ⟨"kernel", c3base, by simp [c2cfg], by decide⟩

/-! ### C7: targeted mutation through set_quant_config_attr -/

/-- Helper: after `d[k] = v` the value stored under `k` is `v`. -/
theorem dictSet_lookup_self {K V : Type} [DecidableEq K] (d : List (K × V)) (k : K) (v : V) :
    (dictSet d k v).lookup k = some v := by
  induction d with
  | nil => simp [dictSet, List.lookup]
  | cons kv rest ih =>
    rcases kv with ⟨k', v'⟩
    rcases eq_or_ne k' k with h | h
    · subst h
      simp [dictSet, List.lookup]
    · have hb : (k == k') = false := beq_eq_false_iff_ne.mpr (Ne.symm h)
      simp [dictSet, h, List.lookup, hb, ih]

/-- Helper: `d[k] = v` leaves the value stored under every other key
unchanged. -/
theorem dictSet_lookup_other {K V : Type} [DecidableEq K] (d : List (K × V)) (k k2 : K) (v : V)
    (hne : k2 ≠ k) : (dictSet d k v).lookup k2 = d.lookup k2 := by
  induction d with
  | nil =>
    have hb : (k2 == k) = false := beq_eq_false_iff_ne.mpr hne
    simp [dictSet, List.lookup, hb]
  | cons kv rest ih =>
    rcases kv with ⟨k', v'⟩
    rcases eq_or_ne k' k with h | h
    · have hb : (k2 == k) = false := beq_eq_false_iff_ne.mpr hne
      subst h
      simp [dictSet, List.lookup, hb]
    · simp only [dictSet, if_neg h, List.lookup]
      rcases eq_or_ne k2 k' with h2 | h2
      · subst h2
        simp [List.lookup]
      · have hb : (k2 == k') = false := beq_eq_false_iff_ne.mpr h2
        simp [List.lookup, hb, ih]

/-- C7: on a node weights config holding an attribute config under exactly one
key containing the queried name, `set_quant_config_attr` with a parameter
that is a field of the attribute config rewrites exactly that mapping entry
(applying the field assignment to its config) and leaves the positional
mapping, every node-level field, and every other named entry unchanged; with
a name matching no stored attribute it fails fatally. -/
theorem c7_set_quant_config_attr (R : Registry) (c : NodeWeightsQuantizationConfig)
    (p : ConfigParam) (s k : String) (cfg : WeightsAttrQuantizationConfig) :
    (hasattrWAQC p = true →
      c.extractConfigForAttributesWithName s = [(k, cfg)] →
      (c.setQuantConfigAttr R p (some (.name s)) =
        .ok { c with attributes_config_mapping :=
                (dictSet c.attributes_config_mapping k (setattrWAQC R cfg p)) } ∧
       (dictSet c.attributes_config_mapping k (setattrWAQC R cfg p)).lookup k =
         some (setattrWAQC R cfg p) ∧
       (∀ k2, k2 ≠ k →
         (dictSet c.attributes_config_mapping k (setattrWAQC R cfg p)).lookup k2 =
           c.attributes_config_mapping.lookup k2))) ∧
    (c.extractConfigForAttributesWithName s = [] →
      c.setQuantConfigAttr R p (some (.name s)) =
        .error (.fatalErr "Weights attribute could not be found to set parameter.")) := by
  constructor
  · intro hW hfilter
    refine ⟨?_, dictSet_lookup_self _ _ _, fun k2 h2 => dictSet_lookup_other _ _ _ _ h2⟩
    have hhas : c.hasAttributeConfig (.name s) = true := by
      simp [NodeWeightsQuantizationConfig.hasAttributeConfig, hfilter]
    simp [NodeWeightsQuantizationConfig.setQuantConfigAttr, hhas,
          NodeWeightsQuantizationConfig.getAttrEntry, hfilter, hW,
          NodeWeightsQuantizationConfig.setEntryConfig,
          NodeWeightsQuantizationConfig.AttrEntry.cfg]
  · intro hfilter
    have hhas : c.hasAttributeConfig (.name s) = false := by
      simp [NodeWeightsQuantizationConfig.hasAttributeConfig, hfilter]
    simp [NodeWeightsQuantizationConfig.setQuantConfigAttr, hhas]

/-- C7 witness: at the concrete config, setting `weights_n_bits` to 4 through
attribute name "bias" rewrites exactly the "bias" entry (other entries and
node-level fields unchanged), and a nonexistent attribute name is fatal. -/
theorem c7_witness :
    c2cfg.setQuantConfigAttr noCalibRegistry (.wNBits 4) (some (.name "bias")) =
      .ok { c2cfg with attributes_config_mapping :=
              (dictSet c2cfg.attributes_config_mapping "bias"
                (setattrWAQC noCalibRegistry c10cfg (.wNBits 4))) } ∧
    (dictSet c2cfg.attributes_config_mapping "bias"
        (setattrWAQC noCalibRegistry c10cfg (.wNBits 4))).lookup "bias" =
      some { c10cfg with weights_n_bits := 4 } ∧
    (dictSet c2cfg.attributes_config_mapping "bias"
        (setattrWAQC noCalibRegistry c10cfg (.wNBits 4))).lookup "kernel" =
      c2cfg.attributes_config_mapping.lookup "kernel" ∧
    c2cfg.setQuantConfigAttr noCalibRegistry (.wNBits 4) (some (.name "gamma")) =
      .error (.fatalErr "Weights attribute could not be found to set parameter.") := by
  have h := c7_set_quant_config_attr noCalibRegistry c2cfg (.wNBits 4) "bias" "bias" c10cfg
  have h2 := c7_set_quant_config_attr noCalibRegistry c2cfg (.wNBits 4) "gamma" "x" c3base
  obtain ⟨hmain, hself, hother⟩ := h.1 rfl rfl
  exact ⟨hmain, hself, hother "kernel" (by decide), h2.2 rfl⟩

/-! ### C1: construction-time attribute resolution -/

namespace NodeWeightsQuantizationConfig

/-- Helper predicate (boolean for computability): a declared attribute that
does not abort construction — a positional attribute requires the operator
default to have quantization disabled, a named attribute requires at most one
capability key to be a substring of its name. -/
def attrConstructionOk (op : OpQuantizationConfig) : NodeAttr → Bool
  | .pos _ => !op.default_weight_attr_config.enable_weights_quantization
  | .name s =>
    decide ((op.attr_weights_configs_mapping.filter (fun kv => strIn kv.1 s)).length ≤ 1)

/-- Helper: one constructor step succeeds exactly when the attribute is
non-aborting, and its success is independent of the accumulator. -/
theorem mkStep_ok_iff (R : Registry) (qc : QuantizationConfig) (op : OpQuantizationConfig)
    (ax : Option (Int × Int)) (c0 : NodeWeightsQuantizationConfig) (a : NodeAttr) :
    (∃ c', mkStep R qc op ax c0 a = .ok c') ↔ attrConstructionOk op a = true := by
  cases a with
  | pos i =>
    by_cases h : op.default_weight_attr_config.enable_weights_quantization
    · simp [mkStep, h, attrConstructionOk]
    · simp [mkStep, h, attrConstructionOk]
  | name s =>
    by_cases h : 1 < (op.attr_weights_configs_mapping.filter (fun kv => strIn kv.1 s)).length
    · simp [mkStep, resolveNamedAttrCfg, h, attrConstructionOk]
    · rcases hF : op.attr_weights_configs_mapping.filter (fun kv => strIn kv.1 s) with _ | ⟨kv, rest⟩
      · simp [mkStep, resolveNamedAttrCfg, hF, attrConstructionOk]
      · rcases rest with _ | ⟨kv2, rest2⟩
        · simp [mkStep, resolveNamedAttrCfg, hF, attrConstructionOk]
        · rw [hF] at h
          simp at h
    
/-- Helper: the positional mapping after one step — a positional attribute
stores the default-derived config under its index, and any step preserves
every other positional lookup. -/
theorem mkStep_pos_lookup (R : Registry) (qc : QuantizationConfig) (op : OpQuantizationConfig)
    (ax : Option (Int × Int)) (c0 c1 : NodeWeightsQuantizationConfig) (a : NodeAttr)
    (h : mkStep R qc op ax c0 a = .ok c1) (i : Nat) :
    (a = .pos i → c1.pos_attributes_config_mapping.lookup i =
      some (WeightsAttrQuantizationConfig.mk' R qc op.default_weight_attr_config ax)) ∧
    (a ≠ .pos i → c1.pos_attributes_config_mapping.lookup i =
      c0.pos_attributes_config_mapping.lookup i) := by
  cases a with
  | pos j =>
    by_cases hd : op.default_weight_attr_config.enable_weights_quantization
    · simp [mkStep, hd] at h
    · simp only [mkStep, hd, if_false, Bool.false_eq_true, Except.ok.injEq] at h
      subst h
      constructor
      · intro hji
        have : j = i := by injection hji
        subst this
        exact dictSet_lookup_self _ _ _
      · intro hne
        have : i ≠ j := by
          intro hij
          exact hne (by rw [hij])
        exact dictSet_lookup_other _ _ _ _ this
  | name s =>
    rcases hR : resolveNamedAttrCfg op s with e | acfg
    · rw [mkStep, hR] at h
      simp at h
    · rw [mkStep, hR] at h
      simp only [Except.ok.injEq] at h
      subst h
      constructor
      · intro hcon
        exact absurd hcon (by simp)
      · intro _
        rfl

/-- Helper: the named mapping after one step — a named attribute stores the
config derived from its resolved capability config under its own name, and
any step preserves the lookup of every other name. -/
theorem mkStep_name_lookup (R : Registry) (qc : QuantizationConfig) (op : OpQuantizationConfig)
    (ax : Option (Int × Int)) (c0 c1 : NodeWeightsQuantizationConfig) (a : NodeAttr)
    (h : mkStep R qc op ax c0 a = .ok c1) (s : String) :
    (a = .name s → ∃ acfg, resolveNamedAttrCfg op s = .ok acfg ∧
      c1.attributes_config_mapping.lookup s =
        some (WeightsAttrQuantizationConfig.mk' R qc acfg ax)) ∧
    (a ≠ .name s → c1.attributes_config_mapping.lookup s =
      c0.attributes_config_mapping.lookup s) := by
  cases a with
  | pos j =>
    by_cases hd : op.default_weight_attr_config.enable_weights_quantization
    · simp [mkStep, hd] at h
    · simp only [mkStep, hd, if_false, Bool.false_eq_true, Except.ok.injEq] at h
      subst h
      constructor
      · intro hcon
        exact absurd hcon (by simp)
      · intro _
        rfl
  | name s2 =>
    rcases hR : resolveNamedAttrCfg op s2 with e | acfg
    · rw [mkStep, hR] at h
      simp at h
    · rw [mkStep, hR] at h
      simp only [Except.ok.injEq] at h
      subst h
      constructor
      · intro hs
        have : s2 = s := by injection hs
        subst this
        exact ⟨acfg, hR, dictSet_lookup_self _ _ _⟩
      · intro hne
        have : s ≠ s2 := by
          intro hss
          exact hne (by rw [hss])
        exact dictSet_lookup_other _ _ _ _ this

/-- Helper: the constructor fold succeeds exactly when every declared
attribute is non-aborting. -/
theorem mk_fold_ok_iff (R : Registry) (qc : QuantizationConfig) (op : OpQuantizationConfig)
    (ax : Option (Int × Int)) (attrs : List NodeAttr) (c0 : NodeWeightsQuantizationConfig) :
    (∃ c, attrs.foldlM (mkStep R qc op ax) c0 = .ok c) ↔
      ∀ a ∈ attrs, attrConstructionOk op a = true := by
  induction attrs generalizing c0 with
  | nil =>
    simp only [List.foldlM_nil, List.not_mem_nil, false_implies, implies_true, iff_true]
    exact ⟨c0, rfl⟩
  | cons a rest ih =>
    rw [List.foldlM_cons]
    rcases hS : mkStep R qc op ax c0 a with e | c1
    · have hbad : ¬ attrConstructionOk op a = true := by
        intro hok
        obtain ⟨c', hc'⟩ := (mkStep_ok_iff R qc op ax c0 a).mpr hok
        rw [hS] at hc'
        exact Except.noConfusion hc'
      constructor
      · rintro ⟨c, hc⟩
        have hred : ((Except.error e : Except PyErr NodeWeightsQuantizationConfig) >>=
            fun c' => rest.foldlM (mkStep R qc op ax) c') = Except.error e := rfl
        rw [hred] at hc
        exact Except.noConfusion hc
      · intro hall
        exact absurd (hall a (by simp)) hbad
    · have hok : attrConstructionOk op a = true :=
        (mkStep_ok_iff R qc op ax c0 a).mp ⟨c1, hS⟩
      have hbind : (Except.ok c1 >>= fun c' => rest.foldlM (mkStep R qc op ax) c') =
          rest.foldlM (mkStep R qc op ax) c1 := rfl
      rw [hbind]
      rw [ih c1]
      constructor
      · intro hall a2 ha2
        rcases List.mem_cons.mp ha2 with h | h
        · subst h; exact hok
        · exact hall a2 h
      · intro hall a2 ha2
        exact hall a2 (List.mem_cons_of_mem _ ha2)

/-- Helper: positional lookups after a successful constructor fold — every
declared positional attribute is stored with the default-derived config, and
undeclared positions are untouched. -/
theorem mk_fold_pos_lookup (R : Registry) (qc : QuantizationConfig) (op : OpQuantizationConfig)
    (ax : Option (Int × Int)) (attrs : List NodeAttr) (c0 c : NodeWeightsQuantizationConfig)
    (h : attrs.foldlM (mkStep R qc op ax) c0 = .ok c) (i : Nat) :
    (NodeAttr.pos i ∈ attrs → c.pos_attributes_config_mapping.lookup i =
      some (WeightsAttrQuantizationConfig.mk' R qc op.default_weight_attr_config ax)) ∧
    (NodeAttr.pos i ∉ attrs → c.pos_attributes_config_mapping.lookup i =
      c0.pos_attributes_config_mapping.lookup i) := by
  induction attrs generalizing c0 with
  | nil =>
    simp only [List.foldlM_nil] at h
    have hc : c0 = c := by injection h
    subst hc
    exact ⟨fun hmem => absurd hmem (List.not_mem_nil _), fun _ => rfl⟩
  | cons a rest ih =>
    rw [List.foldlM_cons] at h
    rcases hS : mkStep R qc op ax c0 a with e | c1
    · rw [hS] at h
      have h2 : (Except.error e : Except PyErr NodeWeightsQuantizationConfig) = .ok c := h
      exact Except.noConfusion h2
    · rw [hS] at h
      have h2 : rest.foldlM (mkStep R qc op ax) c1 = .ok c := h
      obtain ⟨hset, hkeep⟩ := mkStep_pos_lookup R qc op ax c0 c1 a hS i
      obtain ⟨ihset, ihkeep⟩ := ih c1 h2
      constructor
      · intro hmem
        rcases List.mem_cons.mp hmem with heq | hmem2
        · by_cases hr : NodeAttr.pos i ∈ rest
          · exact ihset hr
          · rw [ihkeep hr]
            exact hset heq.symm
        · exact ihset hmem2
      · intro hnmem
        rw [ihkeep (fun hm => hnmem (List.mem_cons_of_mem _ hm))]
        exact hkeep (fun hc => hnmem (hc ▸ List.mem_cons_self _ _))

/-- Helper: named lookups after a successful constructor fold — every declared
named attribute is stored (under its own name) with the config derived from
its resolved capability config, and undeclared names are untouched. -/
theorem mk_fold_name_lookup (R : Registry) (qc : QuantizationConfig) (op : OpQuantizationConfig)
    (ax : Option (Int × Int)) (attrs : List NodeAttr) (c0 c : NodeWeightsQuantizationConfig)
    (h : attrs.foldlM (mkStep R qc op ax) c0 = .ok c) (s : String) :
    (NodeAttr.name s ∈ attrs → ∃ acfg, resolveNamedAttrCfg op s = .ok acfg ∧
      c.attributes_config_mapping.lookup s =
        some (WeightsAttrQuantizationConfig.mk' R qc acfg ax)) ∧
    (NodeAttr.name s ∉ attrs → c.attributes_config_mapping.lookup s =
      c0.attributes_config_mapping.lookup s) := by
  induction attrs generalizing c0 with
  | nil =>
    simp only [List.foldlM_nil] at h
    have hc : c0 = c := by injection h
    subst hc
    exact ⟨fun hmem => absurd hmem (List.not_mem_nil _), fun _ => rfl⟩
  | cons a rest ih =>
    rw [List.foldlM_cons] at h
    rcases hS : mkStep R qc op ax c0 a with e | c1
    · rw [hS] at h
      have h2 : (Except.error e : Except PyErr NodeWeightsQuantizationConfig) = .ok c := h
      exact Except.noConfusion h2
    · rw [hS] at h
      have h2 : rest.foldlM (mkStep R qc op ax) c1 = .ok c := h
      obtain ⟨hset, hkeep⟩ := mkStep_name_lookup R qc op ax c0 c1 a hS s
      obtain ⟨ihset, ihkeep⟩ := ih c1 h2
      constructor
      · intro hmem
        rcases List.mem_cons.mp hmem with heq | hmem2
        · by_cases hr : NodeAttr.name s ∈ rest
          · exact ihset hr
          · obtain ⟨acfg, hres, hlook⟩ := hset heq.symm
            exact ⟨acfg, hres, by rw [ihkeep hr]; exact hlook⟩
        · exact ihset hmem2
      · intro hnmem
        rw [ihkeep (fun hm => hnmem (List.mem_cons_of_mem _ hm))]
        exact hkeep (fun hc => hnmem (hc ▸ List.mem_cons_self _ _))

end NodeWeightsQuantizationConfig

/-- C1: `NodeWeightsQuantizationConfig` construction succeeds exactly when no
declared attribute aborts it fatally — a positional attribute aborts iff the
operator's default attribute config has weights quantization enabled, and a
named attribute aborts iff more than one capability key is a substring of
its name — and on success every positional attribute gets a config built
from the operator default while every named attribute gets a config built
from the unique matching capability config, or from the operator default
when zero keys match. -/
theorem c1_construction_resolution (R : Registry) (qc : QuantizationConfig)
    (op : OpQuantizationConfig) (ax : Option (Int × Int)) (attrs : List NodeAttr) :
    ((∃ c, NodeWeightsQuantizationConfig.mk' R qc op ax attrs = .ok c) ↔
      ∀ a ∈ attrs, NodeWeightsQuantizationConfig.attrConstructionOk op a = true) ∧
    (∀ c, NodeWeightsQuantizationConfig.mk' R qc op ax attrs = .ok c →
      (∀ i, NodeAttr.pos i ∈ attrs →
        c.pos_attributes_config_mapping.lookup i =
          some (WeightsAttrQuantizationConfig.mk' R qc op.default_weight_attr_config ax)) ∧
      (∀ s, NodeAttr.name s ∈ attrs →
        ((op.attr_weights_configs_mapping.filter (fun kv => strIn kv.1 s)) = [] →
          c.attributes_config_mapping.lookup s =
            some (WeightsAttrQuantizationConfig.mk' R qc op.default_weight_attr_config ax)) ∧
        (∀ k acfg,
          (op.attr_weights_configs_mapping.filter (fun kv => strIn kv.1 s)) = [(k, acfg)] →
          c.attributes_config_mapping.lookup s =
            some (WeightsAttrQuantizationConfig.mk' R qc acfg ax)))) := by
  constructor
  · exact NodeWeightsQuantizationConfig.mk_fold_ok_iff R qc op ax attrs _
  · intro c hc
    have hc' : attrs.foldlM (NodeWeightsQuantizationConfig.mkStep R qc op ax) _ = .ok c := hc
    constructor
    · intro i hmem
      exact (NodeWeightsQuantizationConfig.mk_fold_pos_lookup R qc op ax attrs _ c hc' i).1 hmem
    · intro s hmem
      obtain ⟨acfg, hres, hlook⟩ :=
        (NodeWeightsQuantizationConfig.mk_fold_name_lookup R qc op ax attrs _ c hc' s).1 hmem
      constructor
      · intro hfilter
        have hacfg : acfg = op.default_weight_attr_config := by
          simp [NodeWeightsQuantizationConfig.resolveNamedAttrCfg, hfilter] at hres
          exact hres.symm
        rw [hacfg] at hlook
        exact hlook
      · intro k acfg0 hfilter
        have hacfg : acfg = acfg0 := by
          simp [NodeWeightsQuantizationConfig.resolveNamedAttrCfg, hfilter] at hres
          exact hres.symm
        rw [hacfg] at hlook
        exact hlook

/-- Payload of a successful construction, with a fallback for the error case. -/
def okOr {E A : Type} (d : A) : Except E A → A
  | .ok a => a
  | .error _ => d

/-- Concrete declared attribute list: a composite kernel name, a composite
bias name, an unmatched name and a positional attribute. -/
def c1attrs : List NodeAttr :=
  [.name "conv2d/kernel:0", .name "conv2d/bias:0", .name "gamma", .pos 1]

/-- Concrete node weights config built by the constructor on `c1attrs`. -/
def c1cfg : NodeWeightsQuantizationConfig :=
  okOr c2cfg
    (NodeWeightsQuantizationConfig.mk' noCalibRegistry fixedQC fixedOpCfg (some (3, 2)) c1attrs)

/-- C1 witness: on the concrete attribute list the construction succeeds, the
positional attribute and the unmatched name resolve to the operator default,
and the kernel name resolves to the matching "kernel" capability entry. -/
theorem c1_witness :
    NodeWeightsQuantizationConfig.mk' noCalibRegistry fixedQC fixedOpCfg (some (3, 2)) c1attrs =
      .ok c1cfg ∧
    c1cfg.pos_attributes_config_mapping.lookup 1 =
      some (WeightsAttrQuantizationConfig.mk' noCalibRegistry fixedQC
        fixedOpCfg.default_weight_attr_config (some (3, 2))) ∧
    c1cfg.attributes_config_mapping.lookup "conv2d/kernel:0" =
      some (WeightsAttrQuantizationConfig.mk' noCalibRegistry fixedQC
        (fixedAttrCfg true) (some (3, 2))) ∧
    c1cfg.attributes_config_mapping.lookup "gamma" =
      some (WeightsAttrQuantizationConfig.mk' noCalibRegistry fixedQC
        fixedOpCfg.default_weight_attr_config (some (3, 2))) := by
  have h := c1_construction_resolution noCalibRegistry fixedQC fixedOpCfg (some (3, 2)) c1attrs
  have hres : NodeWeightsQuantizationConfig.mk' noCalibRegistry fixedQC fixedOpCfg
      (some (3, 2)) c1attrs = .ok c1cfg := rfl
  obtain ⟨hpos, hname⟩ := h.2 c1cfg hres
  refine ⟨hres, hpos 1 (by simp [c1attrs]), ?_, ?_⟩
  · exact (hname "conv2d/kernel:0" (by simp [c1attrs])).2 "kernel" (fixedAttrCfg true) (by decide)
  · exact (hname "gamma" (by simp [c1attrs])).1 (by decide)

/-! ### C5: concat threshold propagation -/

/-- Helper: an option-valued map over a list succeeds pointwise. -/
theorem mapM_option_all_some {A B : Type} (f : A → Option B) (g : A → B) (l : List A)
    (h : ∀ a ∈ l, f a = some (g a)) : l.mapM f = some (l.map g) := by
  induction l with
  | nil => rfl
  | cons a rest ih =>
    rw [List.mapM_cons, h a (List.mem_cons_self a rest),
        ih (fun x hx => h x (List.mem_cons_of_mem _ hx))]
    rfl

/-- Total form of the per-node update of the substitution, defined on nodes
whose candidate list is nonempty whenever they are updated; used to state
what `substitute` computes. -/
def updatePrevNodeTotal (g : Graph) (nodeId : Nat) (t : Option Rat) (p : BaseNode) :
    BaseNode :=
  if g.edges.contains (p.id, nodeId) && ((g.getNextNodes p).length == 1) then
    match p.candidates_quantization_cfg with
    | [] => p
    | c :: rest =>
      { p with candidates_quantization_cfg :=
        ({ c with activation_quantization_cfg :=
          { c.activation_quantization_cfg with activation_quantization_params :=
            (dictSet c.activation_quantization_cfg.activation_quantization_params
              THRESHOLD t) } } :: rest) }
  else p

/-- Helper: on a node with a nonempty candidate list (or not selected at all),
the partial update agrees with the total one. -/
theorem updatePrevNode_eq_total (g : Graph) (nodeId : Nat) (t : Option Rat) (p : BaseNode)
    (h : (g.edges.contains (p.id, nodeId) && ((g.getNextNodes p).length == 1)) = true →
      p.candidates_quantization_cfg ≠ []) :
    updatePrevNode g nodeId t p = some (updatePrevNodeTotal g nodeId t p) := by
  cases hc : g.edges.contains (p.id, nodeId) && ((g.getNextNodes p).length == 1) with
  | false =>
    simp only [updatePrevNode, updatePrevNodeTotal, hc]
    rfl
  | true =>
    rcases hcand : p.candidates_quantization_cfg with _ | ⟨c, rest⟩
    · exact absurd hcand (h hc)
    · simp only [updatePrevNode, updatePrevNodeTotal, hc, hcand]
      rfl

/-- C5: on a matched combining node with a first candidate config, the
substitution returns the graph in which exactly the direct predecessors with
fan-out one are updated: each such predecessor's first candidate activation
config gets the combining node's calibrated threshold stored under the
THRESHOLD key (all its other parameter entries, its other fields, and its
remaining candidates unchanged), every node that is not such a predecessor —
including every predecessor with fan-out greater than one — is left
untouched, and the edges are unchanged. -/
theorem c5_threshold_propagation (g : Graph) (node : BaseNode)
    (c0 : CandidateNodeQuantizationConfig) (cs : List CandidateNodeQuantizationConfig)
    (hn : node.candidates_quantization_cfg = c0 :: cs)
    (hall : ∀ p ∈ g.nodes,
      (g.edges.contains (p.id, node.id) && ((g.getNextNodes p).length == 1)) = true →
      p.candidates_quantization_cfg ≠ []) :
    substitute g node =
      some { g with nodes := g.nodes.map (updatePrevNodeTotal g node.id
        (pyDictGet c0.activation_quantization_cfg.activation_quantization_params THRESHOLD)) } ∧
    (∀ t p, (g.edges.contains (p.id, node.id) && ((g.getNextNodes p).length == 1)) = false →
      updatePrevNodeTotal g node.id t p = p) ∧
    (∀ t p pc prest,
      (g.edges.contains (p.id, node.id) && ((g.getNextNodes p).length == 1)) = true →
      p.candidates_quantization_cfg = pc :: prest →
      (updatePrevNodeTotal g node.id t p =
        { p with candidates_quantization_cfg :=
          ({ pc with activation_quantization_cfg :=
            { pc.activation_quantization_cfg with activation_quantization_params :=
              (dictSet pc.activation_quantization_cfg.activation_quantization_params
                THRESHOLD t) } } :: prest) } ∧
       pyDictGet
         (dictSet pc.activation_quantization_cfg.activation_quantization_params THRESHOLD t)
         THRESHOLD = t ∧
       (∀ k, k ≠ THRESHOLD →
         (dictSet pc.activation_quantization_cfg.activation_quantization_params
           THRESHOLD t).lookup k =
         pc.activation_quantization_cfg.activation_quantization_params.lookup k))) := by
  refine ⟨?_, ?_, ?_⟩
  · rw [substitute, hn]
    dsimp only
    rw [mapM_option_all_some (updatePrevNode g node.id
        (pyDictGet c0.activation_quantization_cfg.activation_quantization_params THRESHOLD))
        (updatePrevNodeTotal g node.id
        (pyDictGet c0.activation_quantization_cfg.activation_quantization_params THRESHOLD))
        g.nodes
        (fun p hp => updatePrevNode_eq_total g node.id _ p (hall p hp))]
    rfl
  · intro t p hc
    simp only [updatePrevNodeTotal, hc]
    rfl
  · intro t p pc prest hc hcand
    refine ⟨by simp only [updatePrevNodeTotal, hc, hcand]; rfl, ?_, ?_⟩
    · rw [pyDictGet, dictSet_lookup_self]
    · intro k hk
      exact dictSet_lookup_other _ _ _ _ hk

/-- Test node with one candidate config whose activation parameters are
given. -/
def mkTestNode (i : Nat) (params : AParamsDict) : BaseNode where
  id := i
  candidates_quantization_cfg :=
    [{ activation_quantization_cfg := { c8a with activation_quantization_params := params } }]

/-- Scenario nodes: A and B feed the combining node C, which feeds D; C's
calibrated threshold is 4. -/
def csA : BaseNode := mkTestNode 0 [(THRESHOLD, some 1)]

/-- Scenario node B (no calibrated threshold yet). -/
def csB : BaseNode := mkTestNode 1 []

/-- Scenario combining node C with calibrated threshold 4. -/
def csC : BaseNode := mkTestNode 2 [(THRESHOLD, some 4)]

/-- Scenario sink node D. -/
def csD : BaseNode := mkTestNode 3 []

/-- Scenario side node E (second consumer of A in the second graph). -/
def csE : BaseNode := mkTestNode 4 []

/-- Scenario graph 1: `A → C`, `B → C`, `C → D`. -/
def csGraph1 : Graph where
  nodes := [csA, csB, csC, csD]
  edges := [(0, 2), (1, 2), (2, 3)]

/-- Scenario graph 2: additionally `A → E`, so A has fan-out 2. -/
def csGraph2 : Graph where
  nodes := [csA, csB, csC, csD, csE]
  edges := [(0, 2), (1, 2), (2, 3), (0, 4)]

/-- First-candidate activation parameters of a node (empty when the node has
no candidates); statement helper for reading scenario outcomes. -/
def firstCandidateParams (n : BaseNode) : AParamsDict :=
  match n.candidates_quantization_cfg with
  | [] => []
  | c :: _ => c.activation_quantization_cfg.activation_quantization_params

/-- C5 witness: in graph 1 the substitution sets the thresholds of A and B
(fan-out one) to C's threshold 4 and leaves C and D untouched; in graph 2,
where A also feeds E, A keeps its threshold 1. -/
theorem c5_witness :
    substitute csGraph1 csC =
      some { csGraph1 with nodes := csGraph1.nodes.map (updatePrevNodeTotal csGraph1 2 (some 4)) } ∧
    (csGraph1.nodes.map (fun p =>
        pyDictGet (firstCandidateParams (updatePrevNodeTotal csGraph1 2 (some 4) p)) THRESHOLD)) =
      [some 4, some 4, some 4, none] ∧
    substitute csGraph2 csC =
      some { csGraph2 with nodes := csGraph2.nodes.map (updatePrevNodeTotal csGraph2 2 (some 4)) } ∧
    updatePrevNodeTotal csGraph2 2 (some 4) csA = csA ∧
    pyDictGet (firstCandidateParams csA) THRESHOLD = some 1 := by
  have h1 := c5_threshold_propagation csGraph1 csC
    { activation_quantization_cfg :=
        { c8a with activation_quantization_params := [(THRESHOLD, some 4)] } } []
    rfl (by decide)
  have h2 := c5_threshold_propagation csGraph2 csC
    { activation_quantization_cfg :=
        { c8a with activation_quantization_params := [(THRESHOLD, some 4)] } } []
    rfl (by decide)
  refine ⟨h1.1, by decide, h2.1, h2.2.1 (some 4) csA (by decide), by decide⟩
